import Mathlib

/-!
Shallow embedding of the personalization core of the FPP repository
(`src/backend/src/services/personalization_service.py`, with the data model of
`src/backend/src/models/subscriber.py` and the profile route of
`src/backend/src/routes/personalization.py`), together with theorems settling
the frozen claims about it.

Modelling conventions:
* timestamps are integers (seconds); Python's `timedelta(days=d)` is `d * 86400`
  seconds, `(a - b).days` is floor division of the second difference by 86400,
  and `datetime.hour` is `(t / 3600) mod 24`;
* Python floats are modelled as exact rationals (`ℚ`);
* the database is a record of lists kept in insertion order; ORM queries are
  order-preserving filters / first-match lookups over those lists;
* `collections.Counter(xs).most_common(1)[0][0]` is the first-occurrence key of
  `xs` attaining the maximal multiplicity (Counter iterates keys in first-seen
  order and `most_common` sorts stably by descending count);
* Python's stable `sorted(items, key=f, reverse=True)` is `List.mergeSort` with
  `le a b = (f b ≤ f a)`, which is the unique stable descending ordering.
-/

/-- Seconds in a day, for converting Python `timedelta(days=·)`. -/
def secondsPerDay : Int := 86400

/-- Python `(a - b).days` on datetimes modelled as second counts:
floor division of the difference by 86400. -/
def daysBetween (a b : Int) : Int := Int.fdiv (a - b) secondsPerDay

/-- Python `datetime.hour` of a timestamp in seconds. -/
def hourOf (t : Int) : Nat := ((Int.fdiv t 3600) % 24).toNat

/-- Model of `EngagementEvent` rows (`subscriber.py`): subscriber id, event type,
timestamp, optional content section. Fields not read by the core are omitted. -/
structure EngagementEvent where
  subscriber_id : Nat
  event_type : String
  timestamp : Int
  content_section : Option String
deriving DecidableEq, Repr

/-- Model of `Subscriber` rows: id and signup date (the only fields the core reads). -/
structure Subscriber where
  id : Nat
  signup_date : Int
deriving DecidableEq, Repr

/-- Model of `SubscriberProfile` rows, with JSON blobs replaced by typed fields:
preferences as an insertion-ordered association list, segments as a list. -/
structure SubscriberProfile where
  subscriber_id : Nat
  engagement_score : ℚ
  content_preferences : List (String × ℚ)
  behavioral_segments : List String
  churn_risk_score : ℚ
  optimal_send_time : String
deriving DecidableEq, Repr

/-- A content item as passed to `personalize_content_order`: a dict exposing
`section_name` and `content_type` (possibly absent, read via `.get(k, '')`),
plus a title as payload. -/
structure ContentItemReq where
  section_name : Option String
  content_type : Option String
  title : String
deriving DecidableEq, Repr

/-- The database state visible to the service, plus the current clock
(`datetime.utcnow()`), all lists in insertion order. -/
structure DB where
  subscribers : List Subscriber
  events : List EngagementEvent
  profiles : List SubscriberProfile
  now : Int
deriving DecidableEq, Repr

/-- Model of `Subscriber.query.get(subscriber_id)`. -/
def subscriberGet (db : DB) (sid : Nat) : Option Subscriber :=
  db.subscribers.find? (fun s => s.id == sid)

/-- Model of `SubscriberProfile.query.filter_by(subscriber_id=sid).first()`. -/
def profileGet (db : DB) (sid : Nat) : Option SubscriberProfile :=
  db.profiles.find? (fun p => p.subscriber_id == sid)

/-- Python substring test on character lists (`needle in haystack`). -/
def containsSubAux (n : List Char) : List Char → Bool
  | [] => n.isEmpty
  | c :: t => n.isPrefixOf (c :: t) || containsSubAux n t

/-- Python `needle in haystack` on strings. -/
def containsSub (needle haystack : String) : Bool :=
  containsSubAux needle.data haystack.data

/-- Python `str.lower()` (ASCII case folding), written by structural recursion
over the character list so that concrete instances evaluate. -/
def pyLower (s : String) : String := String.mk (s.data.map Char.toLower)

/-- Python `d.get(k, 0)` on an association-list dictionary. -/
def dictGetD (d : List (String × ℚ)) (k : String) : ℚ :=
  match d.find? (fun p => p.1 == k) with
  | some p => p.2
  | none => 0

/-- Lines 36–50 of `calculate_engagement_score`: the score computed from the
open/click/view counts and the window length. -/
def engagement_formula (opens clicks content_views days : Nat) : ℚ :=
  let total_emails := min days 30
  if total_emails = 0 then 0
  else
    let open_rate : ℚ := min ((opens : ℚ) / (total_emails : ℚ)) 1
    let click_rate : ℚ :=
      if 0 < opens then min ((clicks : ℚ) / (total_emails : ℚ)) 1 else 0
    let engagement_rate : ℚ := min ((content_views : ℚ) / (total_emails : ℚ)) 1
    min (open_rate * 30 + click_rate * 40 + engagement_rate * 30) 100

/-- Model of `PersonalizationService.calculate_engagement_score(subscriber_id, days=30)`:
filter the subscriber's events with `timestamp >= now - days`; 0 if none;
otherwise count opens/clicks/views and apply the weighted-rate formula. -/
def calculate_engagement_score (db : DB) (sid : Nat) (days : Nat) : ℚ :=
  let start_date := db.now - (days : Int) * secondsPerDay
  let events := db.events.filter
    (fun e => e.subscriber_id == sid && decide (start_date ≤ e.timestamp))
  if events.isEmpty then 0
  else
    let opens := (events.filter (fun e => e.event_type == "email_open")).length
    let clicks := (events.filter (fun e => e.event_type == "link_click")).length
    let content_views :=
      (events.filter (fun e => e.event_type == "content_view")).length
    engagement_formula opens clicks content_views days

/-- The accumulation step of `section_engagement[event.content_section] += 1`:
increment the entry of an insertion-ordered association list, appending a new
entry with count 1 when the key is absent. -/
def bump : List (String × Nat) → String → List (String × Nat)
  | [], s => [(s, 1)]
  | (k, c) :: t, s => if k = s then (k, c + 1) :: t else (k, c) :: bump t s

/-- Lines 66–72 of `analyze_content_preferences`: per-section event counts, in
first-seen key order, over events that carry a content section. -/
def section_counts (events : List EngagementEvent) : List (String × Nat) :=
  events.foldl
    (fun acc e =>
      match e.content_section with
      | some s => bump acc s
      | none => acc) []

/-- Model of `PersonalizationService.analyze_content_preferences(subscriber_id)`:
all-time events of the subscriber; empty dict if none; otherwise each observed
section maps to `(count / total_events) * 100`. -/
def analyze_content_preferences (db : DB) (sid : Nat) : List (String × ℚ) :=
  let events := db.events.filter (fun e => e.subscriber_id == sid)
  if events.isEmpty then []
  else
    let total_events := events.length
    (section_counts events).map
      (fun p => (p.1, ((p.2 : ℚ) / (total_events : ℚ)) * 100))

/-- Lines 91–128 of `predict_churn_risk` for a found subscriber: the list of
triggered risk contributions, in source order. -/
def risk_factors (db : DB) (sid : Nat) (subscriber : Subscriber) : List Int :=
  let days_since_signup := daysBetween db.now subscriber.signup_date
  let recent_events := (db.events.filter
    (fun e => e.subscriber_id == sid &&
      decide (db.now - 14 * secondsPerDay ≤ e.timestamp))).length
  let last_event_ts : Option Int :=
    ((db.events.filter (fun e => e.subscriber_id == sid)).map
      (fun e => e.timestamp)).max?
  let days_since_last_engagement : Int :=
    match last_event_ts with
    | some t => daysBetween db.now t
    | none => days_since_signup
  (if 14 < days_since_last_engagement
    then [min (days_since_last_engagement * 2) 40] else []) ++
  (if recent_events < 2 then [30] else []) ++
  (if days_since_signup ≤ 7 ∧ recent_events = 0 then [50] else []) ++
  (if 90 < days_since_signup ∧ recent_events < 1 then [35] else [])

/-- Model of `PersonalizationService.predict_churn_risk(subscriber_id)`: 0 for an
unknown subscriber; otherwise the clamped sum of triggered risk contributions,
or the base value 10 when none fired. -/
def predict_churn_risk (db : DB) (sid : Nat) : ℚ :=
  match subscriberGet db sid with
  | none => 0
  | some subscriber =>
    let fs := risk_factors db sid subscriber
    if fs.isEmpty then 10 else min ((fs.sum : ℚ)) 100

/-- Python `max(preferences, key=preferences.get)` over an insertion-ordered
association list with distinct keys: first-maximum scan (replace only on a
strictly greater value). -/
def argmaxKey (k : String) (v : ℚ) (rest : List (String × ℚ)) : String :=
  (rest.foldl (fun best p => if best.2 < p.2 then p else best) (k, v)).1

/-- Model of `PersonalizationService.determine_behavioral_segments(subscriber_id)`:
one engagement-tier label, one churn-tier label, and at most one content-focus
label derived from the top preference key. -/
def determine_behavioral_segments (db : DB) (sid : Nat) : List String :=
  let engagement_score := calculate_engagement_score db sid 30
  let churn_risk := predict_churn_risk db sid
  let preferences := analyze_content_preferences db sid
  (if 70 ≤ engagement_score then ["high_engagement"]
   else if 40 ≤ engagement_score then ["medium_engagement"]
   else ["low_engagement"]) ++
  (if 70 ≤ churn_risk then ["high_churn_risk"]
   else if 40 ≤ churn_risk then ["medium_churn_risk"]
   else ["low_churn_risk"]) ++
  (match preferences with
   | [] => []
   | (k, v) :: rest =>
     let top_preference := argmaxKey k v rest
     if containsSub "stock_analysis" (pyLower top_preference) then ["stock_focused"]
     else if containsSub "market" (pyLower top_preference) then ["market_focused"]
     else if containsSub "news" (pyLower top_preference) then ["news_focused"]
     else [])

/-- The source's `f"ðŸ”¥ {base_subject}"` prefix characters (the file stores the
fire emoji's UTF-8 bytes re-decoded as cp1252, i.e. U+00F0 U+0178 U+201D U+00A5). -/
def fire_emoji : String := "ðŸ”¥"

/-- The source's stock-alert prefix characters (U+00F0 U+0178 U+201C U+02C6). -/
def stock_emoji : String := "ðŸ“ˆ"

/-- The source's market-update prefix characters (U+00F0 U+0178 U+201C U+0160). -/
def market_emoji : String := "ðŸ“Š"

/-- Model of `PersonalizationService.generate_personalized_subject_line`: rule-based
rewriting of the base subject from the profile's segments; the base subject
unchanged when the subscriber or profile is missing. -/
def generate_personalized_subject_line (db : DB) (sid : Nat)
    (content_summary base_subject : String) : String :=
  match subscriberGet db sid with
  | none => base_subject
  | some _ =>
    match profileGet db sid with
    | none => base_subject
    | some profile =>
      let segments := profile.behavioral_segments
      let p1 :=
        if segments.contains "high_engagement" then
          fire_emoji ++ " " ++ base_subject
        else if segments.contains "low_engagement" then
          "Quick Read: " ++ base_subject
        else base_subject
      let p2 :=
        if segments.contains "stock_focused" &&
            containsSub "stock" (pyLower content_summary) then
          stock_emoji ++ " Stock Alert: " ++ base_subject
        else if segments.contains "market_focused" &&
            containsSub "market" (pyLower content_summary) then
          market_emoji ++ " Market Update: " ++ base_subject
        else p1
      if segments.contains "high_churn_risk" then "Don\x27t Miss: " ++ p2 else p2

/-- Lines 228–236 of `personalize_content_order`: combined preference score of
an item (`.get('section_name', '')` / `.get('content_type', '')`, each looked
up in the preferences dict with default 0). -/
def preference_score (preferences : List (String × ℚ))
    (item : ContentItemReq) : ℚ :=
  dictGetD preferences (item.section_name.getD "") +
    dictGetD preferences (item.content_type.getD "")

/-- Model of `PersonalizationService.personalize_content_order(subscriber_id, items)`:
the input unchanged when the profile is missing or its preferences are empty;
otherwise Python's stable `sorted(..., key=preference_score, reverse=True)`,
modelled as a stable merge sort with `le a b = (score b ≤ score a)`. -/
def personalize_content_order (db : DB) (sid : Nat)
    (content_items : List ContentItemReq) : List ContentItemReq :=
  match profileGet db sid with
  | none => content_items
  | some profile =>
    let preferences := profile.content_preferences
    if preferences.isEmpty then content_items
    else
      content_items.mergeSort
        (fun a b =>
          decide (preference_score preferences b ≤ preference_score preferences a))

/-- Keys of a list in first-occurrence order (the iteration order of
`collections.Counter` built from the list). -/
def uniqKeys (l : List Nat) : List Nat :=
  l.foldl (fun acc x => if acc.contains x then acc else acc ++ [x]) []

/-- Model of `Counter(l).most_common(1)[0][0]`: among first-occurrence keys, the first
one attaining the maximal multiplicity (the stable descending sort of
`most_common` keeps insertion order on ties). -/
def mostCommonFirst (l : List Nat) : Nat :=
  match uniqKeys l with
  | [] => 0
  | k :: ks => ks.foldl (fun best x => if l.count best < l.count x then x else best) k

/-- Python `f"{hour:02d}:00"` for hours 0–23. -/
def formatHour (h : Nat) : String :=
  (if h < 10 then "0" ++ toString h else toString h) ++ ":00"

/-- Replace the profile row of `profile.subscriber_id` (get-or-create plus
commit), appending when no row exists. -/
def upsertProfile : List SubscriberProfile → SubscriberProfile → List SubscriberProfile
  | [], p => [p]
  | q :: t, p => if q.subscriber_id = p.subscriber_id then p :: t else q :: upsertProfile t p

/-- Model of `PersonalizationService.update_subscriber_profile(subscriber_id)`: compute
all metrics, derive the optimal send time from the last 30 days of
`email_open` events, and write the profile row; returns the profile and the
updated database. -/
def update_subscriber_profile (db : DB) (sid : Nat) : SubscriberProfile × DB :=
  let engagement_score := calculate_engagement_score db sid 30
  let content_preferences := analyze_content_preferences db sid
  let churn_risk_score := predict_churn_risk db sid
  let behavioral_segments := determine_behavioral_segments db sid
  let recent_opens := db.events.filter
    (fun e => e.subscriber_id == sid && e.event_type == "email_open" &&
      decide (db.now - 30 * secondsPerDay ≤ e.timestamp))
  let optimal_send_time :=
    if recent_opens.isEmpty then "09:00"
    else
      let hours := recent_opens.map (fun e => hourOf e.timestamp)
      formatHour (mostCommonFirst hours)
  let profile : SubscriberProfile :=
    { subscriber_id := sid
      engagement_score := engagement_score
      content_preferences := content_preferences
      behavioral_segments := behavioral_segments
      churn_risk_score := churn_risk_score
      optimal_send_time := optimal_send_time }
  (profile, { db with profiles := upsertProfile db.profiles profile })

/-- The `PUT /subscribers/<id>/profile` route handler
(`routes/personalization.py` lines 277–290): 404 for an unknown subscriber,
otherwise delegate to the service. -/
def update_subscriber_profile_route (db : DB) (sid : Nat) :
    Except String (SubscriberProfile × DB) :=
  match subscriberGet db sid with
  | none => Except.error "Subscriber not found"
  | some _ => Except.ok (update_subscriber_profile db sid)

/-- The engagement-tier labels. -/
def engagement_tier_labels : List String :=
  ["high_engagement", "medium_engagement", "low_engagement"]

/-- The churn-tier labels. -/
def churn_tier_labels : List String :=
  ["high_churn_risk", "medium_churn_risk", "low_churn_risk"]

/-- The content-focus labels. -/
def focus_labels : List String :=
  ["stock_focused", "market_focused", "news_focused"]

/-- Sum of the values of a preference dictionary. -/
def sumVals (l : List (String × ℚ)) : ℚ := (l.map (fun p => p.2)).sum

/-- Sum of the counts of a section-count dictionary. -/
def sumCounts (l : List (String × Nat)) : Nat := (l.map (fun p => p.2)).sum

/-- An entirely empty database. -/
def dbEmpty : DB := { subscribers := [], events := [], profiles := [], now := 0 }

/-- A subscriber signed up at time 0 with two email opens on day 99
(hours 10 and 3), observed at day 100. -/
def dbActive : DB :=
  { subscribers := [⟨1, 0⟩]
    events := [⟨1, "email_open", 86400 * 99 + 3600 * 10, none⟩,
               ⟨1, "email_open", 86400 * 99 + 3600 * 3, none⟩]
    profiles := []
    now := 86400 * 100 }

/-- A subscriber with one recorded event that carries no content section. -/
def dbNoSection : DB :=
  { subscribers := [⟨1, 0⟩]
    events := [⟨1, "email_open", 86400 * 99, none⟩]
    profiles := []
    now := 86400 * 100 }

/-- A subscriber whose three events all carry a content section. -/
def dbSectioned : DB :=
  { subscribers := [⟨1, 0⟩]
    events := [⟨1, "content_view", 86400 * 99, some "stock_analysis"⟩,
               ⟨1, "content_view", 86400 * 98, some "stock_analysis"⟩,
               ⟨1, "content_view", 86400 * 97, some "news"⟩]
    profiles := []
    now := 86400 * 100 }

/-- A database with one engagement event but no subscriber rows at all. -/
def dbUnknown : DB :=
  { subscribers := []
    events := [⟨1, "email_open", 86400 * 99, none⟩]
    profiles := []
    now := 86400 * 100 }

/-- A subscriber with a stored profile whose segments trigger the stock-focus
and churn rules and whose preferences are non-empty. -/
def dbProfiled : DB :=
  { subscribers := [⟨1, 0⟩]
    events := []
    profiles := [{ subscriber_id := 1
                   engagement_score := 80
                   content_preferences := [("stock_analysis", 60), ("news", 40)]
                   behavioral_segments :=
                     ["high_engagement", "high_churn_risk", "stock_focused"]
                   churn_risk_score := 75
                   optimal_send_time := "09:00" }]
    now := 86400 * 100 }

/-- A sample content item. -/
def sampleItem : ContentItemReq :=
  { section_name := some "stock_analysis", content_type := some "news", title := "a" }

/-- Three sample content items with distinct titles. -/
def sampleItems : List ContentItemReq :=
  [{ section_name := some "news", content_type := none, title := "n1" },
   { section_name := some "stock_analysis", content_type := none, title := "s1" },
   { section_name := some "news", content_type := none, title := "n2" }]

/-- Modelled from the claim's words for C5 (not from the source): the send time
obtained by picking, among `email_open` events of the last 30 days, the hour
with the highest count, breaking ties by the LOWEST hour value; `"09:00"` when
there are no such opens. Used only to compare the claim against the code. -/
def claimedLowestHourSendTime (db : DB) (sid : Nat) : String :=
  let recent_opens := db.events.filter
    (fun e => e.subscriber_id == sid && e.event_type == "email_open" &&
      decide (db.now - 30 * secondsPerDay ≤ e.timestamp))
  if recent_opens.isEmpty then "09:00"
  else
    let hours := recent_opens.map (fun e => hourOf e.timestamp)
    let maxCount := (hours.map (fun h => hours.count h)).foldl max 0
    formatHour ((((List.range 24).filter (fun h => hours.count h = maxCount)).head?).getD 0)

/-- The claim's scoring window `[now - days, now]` for a subscriber: the code's
filter (`timestamp >= now - days`) strengthened with the upper bound `now`. -/
def window_events (db : DB) (sid : Nat) (days : Nat) : List EngagementEvent :=
  db.events.filter (fun e => e.subscriber_id == sid &&
    decide (db.now - (days : Int) * secondsPerDay ≤ e.timestamp) &&
    decide (e.timestamp ≤ db.now))

/-- Count of events of a given type in the claim's scoring window. -/
def window_count (db : DB) (sid : Nat) (days : Nat) (ty : String) : Nat :=
  ((window_events db sid days).filter (fun e => e.event_type == ty)).length

/-- A string ends with `base`: some prefix followed by `base`. -/
def EndsWithBase (base x : String) : Prop := ∃ p, x = p ++ base

/- ======================= helper lemmas ======================= -/

/-- Every triggered churn-risk contribution is at least 30. -/
lemma risk_factors_ge_30 (db : DB) (sid : Nat) (subscriber : Subscriber) :
    ∀ x ∈ risk_factors db sid subscriber, (30 : Int) ≤ x := by
  intro x hx
  unfold risk_factors at hx
  simp only [List.mem_append] at hx
  rcases hx with ((h | h) | h) | h
  · split_ifs at h with hc
    · simp only [List.mem_singleton] at h
      subst h
      refine le_min (by omega) (by norm_num)
    · simp at h
  · split_ifs at h with hc
    · simp only [List.mem_singleton] at h
      omega
    · simp at h
  · split_ifs at h with hc
    · simp only [List.mem_singleton] at h
      omega
    · simp at h
  · split_ifs at h with hc
    · simp only [List.mem_singleton] at h
      omega
    · simp at h

/-- A non-empty list of integers all at least 30 sums to at least 30. -/
lemma sum_ge_30 : ∀ (l : List Int), (∀ x ∈ l, (30 : Int) ≤ x) → l ≠ [] →
    (30 : Int) ≤ l.sum := by
  intro l hl hne
  match l, hne with
  | x :: t, _ =>
    have ht : (0 : Int) ≤ t.sum := by
      have : ∀ y ∈ t, (0 : Int) ≤ y := fun y hy =>
        le_trans (by norm_num) (hl y (List.mem_cons_of_mem _ hy))
      exact List.sum_nonneg this
    have hx : (30 : Int) ≤ x := hl x (List.mem_cons_self _ _)
    simp only [List.sum_cons]
    omega

/- ======================= claim theorems ======================= -/

/-- C1. For every subscriber and window length `days ≥ 1` (with all event
timestamps in the past, so that the code's one-sided window filter agrees with
the claim's window `[now - days, now]`): `calculate_engagement_score` returns 0
when no events fall in the window, and otherwise, with
`total_emails = min days 30`, returns
`min (30*open_rate + 40*click_rate + 30*view_rate) 100` where
`open_rate = min (opens/total_emails) 1`,
`click_rate = min (clicks/total_emails) 1` if `opens > 0` and `0` otherwise,
and `view_rate = min (views/total_emails) 1`. -/
theorem engagement_score_window_formula (db : DB) (sid : Nat) (days : Nat)
    (hdays : 1 ≤ days) (hpast : ∀ e ∈ db.events, e.timestamp ≤ db.now) :
    (window_events db sid days = [] →
      calculate_engagement_score db sid days = 0) ∧
    (window_events db sid days ≠ [] →
      calculate_engagement_score db sid days =
        min (30 * min ((window_count db sid days "email_open" : ℚ) /
              ((min days 30 : Nat) : ℚ)) 1 +
          40 * (if 0 < window_count db sid days "email_open" then
              min ((window_count db sid days "link_click" : ℚ) /
                ((min days 30 : Nat) : ℚ)) 1
            else 0) +
          30 * min ((window_count db sid days "content_view" : ℚ) /
              ((min days 30 : Nat) : ℚ)) 1) 100) := by
  have hfilter : window_events db sid days =
      db.events.filter (fun e => e.subscriber_id == sid &&
        decide (db.now - (days : Int) * secondsPerDay ≤ e.timestamp)) := by
    unfold window_events
    apply List.filter_congr
    intro e he
    have : decide (e.timestamp ≤ db.now) = true := decide_eq_true (hpast e he)
    rw [this, Bool.and_true]
  have htot : ¬ (min days 30 = 0) := by omega
  constructor
  · intro h
    unfold calculate_engagement_score
    dsimp only
    rw [← hfilter, h]
    simp
  · intro h
    unfold calculate_engagement_score engagement_formula
    dsimp only
    rw [← hfilter, if_neg (by simpa [List.isEmpty_iff] using h), if_neg htot]
    unfold window_count
    congr 1
    ring

/-- C1 witness: on `dbActive` with a 30-day window the score is 2. -/
theorem engagement_score_window_formula_witness :
    calculate_engagement_score dbActive 1 30 = 2 := by
  have h := (engagement_score_window_formula dbActive 1 30 (by norm_num)
    (by decide)).2 (by decide)
  have h1 : window_count dbActive 1 30 "email_open" = 2 := by decide
  have h2 : window_count dbActive 1 30 "link_click" = 0 := by decide
  have h3 : window_count dbActive 1 30 "content_view" = 0 := by decide
  rw [h, h1, h2, h3]
  norm_num [min_def]

/-- C2. For every subscriber found in the registry, `predict_churn_risk` equals
the sum of the triggered risk contributions clamped to 100 (and exactly the
floor 10 precisely when no contribution fires), and always lies in [10, 100]. -/
theorem churn_risk_bounds (db : DB) (sid : Nat) (subscriber : Subscriber)
    (h : subscriberGet db sid = some subscriber) :
    predict_churn_risk db sid =
      (if (risk_factors db sid subscriber).isEmpty then 10
       else min (((risk_factors db sid subscriber).sum : ℚ)) 100) ∧
    10 ≤ predict_churn_risk db sid ∧ predict_churn_risk db sid ≤ 100 ∧
    (predict_churn_risk db sid = 10 ↔ risk_factors db sid subscriber = []) := by
  have heq : predict_churn_risk db sid =
      (if (risk_factors db sid subscriber).isEmpty then 10
       else min (((risk_factors db sid subscriber).sum : ℚ)) 100) := by
    unfold predict_churn_risk
    rw [h]
  refine ⟨heq, ?_, ?_, ?_⟩
  · rw [heq]
    split_ifs with he
    · norm_num
    · have hsum : (30 : Int) ≤ (risk_factors db sid subscriber).sum :=
        sum_ge_30 _ (risk_factors_ge_30 db sid subscriber)
          (by simpa [List.isEmpty_iff] using he)
      refine le_min ?_ (by norm_num)
      calc (10 : ℚ) ≤ (30 : ℚ) := by norm_num
        _ ≤ ((risk_factors db sid subscriber).sum : ℚ) := by exact_mod_cast hsum
  · rw [heq]
    split_ifs with he
    · norm_num
    · exact min_le_right _ _
  · rw [heq]
    split_ifs with he
    · simpa [List.isEmpty_iff] using he
    · have hne : risk_factors db sid subscriber ≠ [] := by
        simpa [List.isEmpty_iff] using he
      have hsum : (30 : Int) ≤ (risk_factors db sid subscriber).sum :=
        sum_ge_30 _ (risk_factors_ge_30 db sid subscriber) hne
      constructor
      · intro h10
        exfalso
        have : (30 : ℚ) ≤ min (((risk_factors db sid subscriber).sum : ℚ)) 100 :=
          le_min (by exact_mod_cast hsum) (by norm_num)
        rw [h10] at this
        norm_num at this
      · intro hcon
        exact absurd hcon hne

/-- C2 witness: the active subscriber of `dbActive` fires no contribution and
scores exactly the floor 10, inside [10, 100]. -/
theorem churn_risk_bounds_witness :
    predict_churn_risk dbActive 1 = 10 ∧
    10 ≤ predict_churn_risk dbActive 1 ∧ predict_churn_risk dbActive 1 ≤ 100 := by
  have h := churn_risk_bounds dbActive 1 ⟨1, 0⟩ (by decide)
  exact ⟨h.2.2.2.mpr (by decide), h.2.1, h.2.2.1⟩

/-- C9. For a subscriber id with no stored profile, both `personalize_content_order`
and `generate_personalized_subject_line` are no-ops, and for an unknown
subscriber id `generate_personalized_subject_line` is a no-op; none of them
fails (they are total functions). -/
theorem missing_profile_noop (db : DB) (sid : Nat)
    (content_summary base_subject : String)
    (content_items : List ContentItemReq) :
    (profileGet db sid = none →
      generate_personalized_subject_line db sid content_summary base_subject =
        base_subject ∧
      personalize_content_order db sid content_items = content_items) ∧
    (subscriberGet db sid = none →
      generate_personalized_subject_line db sid content_summary base_subject =
        base_subject) := by
  constructor
  · intro h
    constructor
    · unfold generate_personalized_subject_line
      cases hs : subscriberGet db sid
      · rfl
      · rw [h]
    · unfold personalize_content_order
      rw [h]
  · intro h
    unfold generate_personalized_subject_line
    rw [h]

/-- C9 witness: on the empty database both operations are no-ops for id 1. -/
theorem missing_profile_noop_witness :
    generate_personalized_subject_line dbEmpty 1 "summary" "Base" = "Base" ∧
    personalize_content_order dbEmpty 1 [sampleItem] = [sampleItem] :=
  (missing_profile_noop dbEmpty 1 "summary" "Base" [sampleItem]).1 rfl

/-- C3. `determine_behavioral_segments` always contains exactly one
engagement-tier label, exactly one churn-tier label, and at most one
content-focus label; a focus label appears only when the analyzed preferences
are non-empty. -/
theorem segments_tier_invariant (db : DB) (sid : Nat) :
    (determine_behavioral_segments db sid).countP
      (fun s => engagement_tier_labels.contains s) = 1 ∧
    (determine_behavioral_segments db sid).countP
      (fun s => churn_tier_labels.contains s) = 1 ∧
    (determine_behavioral_segments db sid).countP
      (fun s => focus_labels.contains s) ≤ 1 ∧
    ((determine_behavioral_segments db sid).countP
      (fun s => focus_labels.contains s) = 1 →
      analyze_content_preferences db sid ≠ []) := by
  unfold determine_behavioral_segments
  dsimp only
  rcases hp : analyze_content_preferences db sid with _ | ⟨⟨k, v⟩, rest⟩ <;>
    split_ifs <;>
    simp_all [List.countP_append, List.countP_cons, List.countP_nil,
      engagement_tier_labels, churn_tier_labels, focus_labels] <;>
    split_ifs <;>
    simp_all

lemma endsWithBase_self (base : String) : EndsWithBase base base :=
  ⟨"", (String.empty_append base).symm⟩

lemma endsWithBase_append (base pre x : String) (h : EndsWithBase base x) :
    EndsWithBase base (pre ++ x) := by
  obtain ⟨p, hp⟩ := h
  exact ⟨pre ++ p, by rw [hp, String.append_assoc]⟩

lemma endsWithBase_ite (base : String) (c : Prop) [Decidable c] (x y : String)
    (hx : EndsWithBase base x) (hy : EndsWithBase base y) :
    EndsWithBase base (if c then x else y) := by
  split_ifs <;> assumption

/-- C10. With a present subscriber and profile: when the stock-focus rule fires
(`stock_focused` segment and "stock" in the lowered summary) the result is the
stock prefix applied to the ORIGINAL base subject (discarding any
engagement-tier prefix), wrapped by "Don\x27t Miss: " iff `high_churn_risk` is
among the segments; same for the market rule when the stock rule does not fire;
and for ALL inputs the returned subject ends with the base subject. -/
theorem subject_line_focus_overrides (db : DB) (sid : Nat)
    (content_summary base_subject : String)
    (subscriber : Subscriber) (profile : SubscriberProfile)
    (hs : subscriberGet db sid = some subscriber)
    (hp : profileGet db sid = some profile) :
    ((profile.behavioral_segments.contains "stock_focused" &&
        containsSub "stock" (pyLower content_summary)) = true →
      generate_personalized_subject_line db sid content_summary base_subject =
        (if profile.behavioral_segments.contains "high_churn_risk" then
          "Don\x27t Miss: " ++ (stock_emoji ++ " Stock Alert: " ++ base_subject)
         else stock_emoji ++ " Stock Alert: " ++ base_subject)) ∧
    ((profile.behavioral_segments.contains "stock_focused" &&
        containsSub "stock" (pyLower content_summary)) = false →
      (profile.behavioral_segments.contains "market_focused" &&
        containsSub "market" (pyLower content_summary)) = true →
      generate_personalized_subject_line db sid content_summary base_subject =
        (if profile.behavioral_segments.contains "high_churn_risk" then
          "Don\x27t Miss: " ++ (market_emoji ++ " Market Update: " ++ base_subject)
         else market_emoji ++ " Market Update: " ++ base_subject)) ∧
    EndsWithBase base_subject
      (generate_personalized_subject_line db sid content_summary base_subject) := by
  unfold generate_personalized_subject_line
  rw [hs, hp]
  dsimp only
  refine ⟨?_, ?_, ?_⟩
  · intro hc
    rw [if_pos hc]
  · intro hc hm
    rw [hc, hm]
    simp
  · apply endsWithBase_ite
    · apply endsWithBase_append
      apply endsWithBase_ite
      · exact endsWithBase_append _ _ _ (endsWithBase_self _)
      · apply endsWithBase_ite
        · exact endsWithBase_append _ _ _ (endsWithBase_self _)
        · apply endsWithBase_ite
          · exact endsWithBase_append _ _ _ (endsWithBase_self _)
          · apply endsWithBase_ite
            · exact endsWithBase_append _ _ _ (endsWithBase_self _)
            · exact endsWithBase_self _
    · apply endsWithBase_ite
      · exact endsWithBase_append _ _ _ (endsWithBase_self _)
      · apply endsWithBase_ite
        · exact endsWithBase_append _ _ _ (endsWithBase_self _)
        · apply endsWithBase_ite
          · exact endsWithBase_append _ _ _ (endsWithBase_self _)
          · apply endsWithBase_ite
            · exact endsWithBase_append _ _ _ (endsWithBase_self _)
            · exact endsWithBase_self _

/-- C10 witness: on the profiled database the stock rule fires, the engagement
prefix is discarded and the churn prefix composes on top. -/
theorem subject_line_focus_overrides_witness :
    generate_personalized_subject_line dbProfiled 1 "Big stock picks" "Hello" =
      "Don\x27t Miss: " ++ (stock_emoji ++ " Stock Alert: " ++ "Hello") := by
  have h := (subject_line_focus_overrides dbProfiled 1 "Big stock picks" "Hello"
    ⟨1, 0⟩ ((dbProfiled.profiles).head (by decide))
    (by decide) (by decide)).1 (by decide)
  simpa using h

lemma upsertProfile_find (ps : List SubscriberProfile) (p : SubscriberProfile)
    (sid : Nat) (hpid : p.subscriber_id = sid) :
    (upsertProfile ps p).find? (fun q => q.subscriber_id == sid) = some p := by
  induction ps with
  | nil => simp [upsertProfile, hpid]
  | cons q t ih =>
    unfold upsertProfile
    split_ifs with hq
    · simp [hpid]
    · rw [List.find?_cons_of_neg _ (by simp [hpid] at hq ⊢; omega)]
      exact ih

/-- C6 (amended). At the service layer a rebuild for an id absent from the
subscriber registry does NOT fail: `predict_churn_risk` returns 0 for the
missing subscriber, and `update_subscriber_profile` creates/overwrites the
profile row anyway; only the HTTP route wrapper rejects the request with
"Subscriber not found" before invoking the service, leaving profiles
untouched. -/
theorem rebuild_unknown_subscriber (db : DB) (sid : Nat)
    (h : subscriberGet db sid = none) :
    update_subscriber_profile_route db sid =
      Except.error "Subscriber not found" ∧
    (update_subscriber_profile db sid).1.churn_risk_score = 0 ∧
    profileGet (update_subscriber_profile db sid).2 sid =
      some (update_subscriber_profile db sid).1 := by
  refine ⟨?_, ?_, ?_⟩
  · unfold update_subscriber_profile_route
    rw [h]
  · show predict_churn_risk db sid = 0
    unfold predict_churn_risk
    rw [h]
  · show (upsertProfile db.profiles _).find? _ = _
    exact upsertProfile_find _ _ _ rfl

/-- C6 counterexample: on `dbUnknown` the subscriber is absent from the
registry, yet the service rebuild returns normally and creates a profile row
(it does not fail with NotFound, and it does create a profile). -/
theorem rebuild_unknown_subscriber_cx :
    subscriberGet dbUnknown 1 = none ∧
    dbUnknown.profiles = [] ∧
    (update_subscriber_profile dbUnknown 1).2.profiles ≠ [] := by
  refine ⟨rfl, rfl, ?_⟩
  exact List.cons_ne_nil _ _

/-- C6 witness: on `dbUnknown`, id 1: the route errors and the service creates
the row with churn risk 0. -/
theorem rebuild_unknown_subscriber_witness :
    update_subscriber_profile_route dbUnknown 1 =
      Except.error "Subscriber not found" ∧
    (update_subscriber_profile dbUnknown 1).1.churn_risk_score = 0 :=
  ⟨(rebuild_unknown_subscriber dbUnknown 1 rfl).1,
   (rebuild_unknown_subscriber dbUnknown 1 rfl).2.1⟩

lemma bump_sumCounts (acc : List (String × Nat)) (s : String) :
    sumCounts (bump acc s) = sumCounts acc + 1 := by
  induction acc with
  | nil => simp [bump, sumCounts]
  | cons q t ih =>
    obtain ⟨k, c⟩ := q
    unfold bump
    split_ifs with hk
    · simp [sumCounts]
      omega
    · simp only [sumCounts, List.map_cons, List.sum_cons] at ih ⊢
      omega

lemma foldl_bump_sum (events : List EngagementEvent) :
    ∀ acc : List (String × Nat),
      sumCounts (events.foldl
        (fun acc e =>
          match e.content_section with
          | some s => bump acc s
          | none => acc) acc) =
      sumCounts acc + events.countP (fun e => e.content_section.isSome) := by
  induction events with
  | nil => intro acc; simp
  | cons e t ih =>
    intro acc
    simp only [List.foldl_cons, List.countP_cons]
    cases hcs : e.content_section with
    | none => rw [ih]; simp [hcs]
    | some sec => rw [ih, bump_sumCounts]; simp [hcs]; omega

lemma map_vals_sum (l : List (String × Nat)) (T : ℚ) :
    sumVals (l.map (fun p => (p.1, ((p.2 : ℚ) / T) * 100))) =
      ((sumCounts l : ℚ) / T) * 100 := by
  induction l with
  | nil => simp [sumVals, sumCounts]
  | cons q t ih =>
    simp only [List.map_cons, sumVals, List.sum_cons, sumCounts] at ih ⊢
    rw [ih]
    push_cast
    ring

/-- C4 (amended). For every subscriber with at least one recorded event, ALL of
whose events carry a content section, the values of
`analyze_content_preferences` sum to 100. (As stated the claim fails: events
without a section enter the denominator but no section count.) -/
theorem preferences_sum_100 (db : DB) (sid : Nat)
    (hne : db.events.filter (fun e => e.subscriber_id == sid) ≠ [])
    (hall : ∀ e ∈ db.events.filter (fun e => e.subscriber_id == sid),
      e.content_section.isSome) :
    sumVals (analyze_content_preferences db sid) = 100 := by
  unfold analyze_content_preferences
  dsimp only
  rw [if_neg (by simpa [List.isEmpty_iff] using hne)]
  rw [map_vals_sum]
  unfold section_counts
  rw [foldl_bump_sum]
  rw [List.countP_eq_length.mpr (by intro a ha; exact hall a ha)]
  have hlen : ((db.events.filter (fun e => e.subscriber_id == sid)).length : ℚ) ≠ 0 := by
    have := List.length_pos.mpr hne
    positivity
  simp [sumCounts, div_self hlen]

/-- C4 counterexample: a subscriber with one recorded event that carries no
content section; the preference values sum to 0, not 100. -/
theorem preferences_sum_100_cx :
    dbNoSection.events.filter (fun e => e.subscriber_id == 1) ≠ [] ∧
    sumVals (analyze_content_preferences dbNoSection 1) ≠ 100 := by
  constructor
  · decide
  · decide

/-- C4 witness: on `dbSectioned` every event has a section and the preference
values sum to 100. -/
theorem preferences_sum_100_witness :
    sumVals (analyze_content_preferences dbSectioned 1) = 100 :=
  preferences_sum_100 dbSectioned 1 (by decide) (by decide)

lemma foldl_firstMax (cnt : Nat → Nat) :
    ∀ (ks : List Nat) (b : Nat),
      ∃ r, ks.foldl (fun best x => if cnt best < cnt x then x else best) b = r ∧
        ((r = b ∧ ∀ k ∈ ks, cnt k ≤ cnt b) ∨
         (∃ l₁ l₂, ks = l₁ ++ r :: l₂ ∧ cnt b < cnt r ∧
           (∀ k ∈ l₁, cnt k < cnt r) ∧ (∀ k ∈ l₂, cnt k ≤ cnt r))) := by
  intro ks
  induction ks with
  | nil => intro b; exact ⟨b, rfl, Or.inl ⟨rfl, by simp⟩⟩
  | cons x t ih =>
    intro b
    by_cases hx : cnt b < cnt x
    · obtain ⟨r, hr, hcase⟩ := ih x
      refine ⟨r, by simpa [hx] using hr, Or.inr ?_⟩
      rcases hcase with ⟨hrb, hall⟩ | ⟨l₁, l₂, ht, hbr, h1, h2⟩
      · subst hrb
        exact ⟨[], t, by simp, hx, by simp, hall⟩
      · refine ⟨x :: l₁, l₂, by simp [ht], lt_trans hx hbr, ?_, h2⟩
        intro k hk
        rcases List.mem_cons.mp hk with hk | hk
        · subst hk; exact hbr
        · exact h1 k hk
    · obtain ⟨r, hr, hcase⟩ := ih b
      refine ⟨r, by simpa [hx] using hr, ?_⟩
      rcases hcase with ⟨hrb, hall⟩ | ⟨l₁, l₂, ht, hbr, h1, h2⟩
      · refine Or.inl ⟨hrb, ?_⟩
        intro k hk
        rcases List.mem_cons.mp hk with hk | hk
        · subst hk; omega
        · exact hall k hk
      · refine Or.inr ⟨x :: l₁, l₂, by simp [ht], hbr, ?_, h2⟩
        intro k hk
        rcases List.mem_cons.mp hk with hk | hk
        · subst hk; omega
        · exact h1 k hk

lemma foldl_keep_head (step : List Nat → Nat → List Nat)
    (hstep : ∀ acc x, step acc x = acc ∨ step acc x = acc ++ [x]) :
    ∀ (l acc : List Nat) (a : Nat), ∃ t, l.foldl step (a :: acc) = a :: t := by
  intro l
  induction l with
  | nil => intro acc a; exact ⟨acc, rfl⟩
  | cons x xs ih =>
    intro acc a
    rcases hstep (a :: acc) x with h | h
    · simpa [h] using ih acc a
    · have := ih (acc ++ [x]) a
      simpa [h] using this

lemma uniqKeys_cons (x : Nat) (l : List Nat) :
    ∃ t, uniqKeys (x :: l) = x :: t := by
  have h0 : uniqKeys (x :: l) =
      l.foldl (fun acc y => if acc.contains y then acc else acc ++ [y]) [x] := by
    simp [uniqKeys]
  rw [h0]
  exact foldl_keep_head _ (by
    intro acc y
    by_cases h : acc.contains y
    · exact Or.inl (if_pos h)
    · exact Or.inr (if_neg h)) l [] x

/-- C5 (amended). The rebuild `update_subscriber_profile` sets `optimal_send_time` to
`"HH:00"` for the hour with the highest count among `email_open` events of the
last 30 days, breaking ties by the hour whose FIRST open occurs earliest in
the fetched event sequence (the insertion order of `collections.Counter` with
`most_common`'s stable descending sort), not by the lowest hour value; with no
such opens it is `"09:00"`. -/
theorem rebuild_send_time (db : DB) (sid : Nat) :
    (db.events.filter (fun e => e.subscriber_id == sid &&
        e.event_type == "email_open" &&
        decide (db.now - 30 * secondsPerDay ≤ e.timestamp)) = [] →
      (update_subscriber_profile db sid).1.optimal_send_time = "09:00") ∧
    (∀ hours, hours = (db.events.filter (fun e => e.subscriber_id == sid &&
        e.event_type == "email_open" &&
        decide (db.now - 30 * secondsPerDay ≤ e.timestamp))).map
          (fun e => hourOf e.timestamp) →
      hours ≠ [] →
      ∃ h l₁ l₂, uniqKeys hours = l₁ ++ h :: l₂ ∧
        (∀ k ∈ l₁, hours.count k < hours.count h) ∧
        (∀ k ∈ l₂, hours.count k ≤ hours.count h) ∧
        (update_subscriber_profile db sid).1.optimal_send_time = formatHour h) := by
  have hst : (update_subscriber_profile db sid).1.optimal_send_time =
      (if (db.events.filter (fun e => e.subscriber_id == sid &&
          e.event_type == "email_open" &&
          decide (db.now - 30 * secondsPerDay ≤ e.timestamp))).isEmpty
        then "09:00"
        else formatHour (mostCommonFirst
          ((db.events.filter (fun e => e.subscriber_id == sid &&
            e.event_type == "email_open" &&
            decide (db.now - 30 * secondsPerDay ≤ e.timestamp))).map
              (fun e => hourOf e.timestamp)))) := rfl
  constructor
  · intro h
    rw [hst, h]
    simp
  · intro hours hh hne
    have hioe : ((db.events.filter (fun e => e.subscriber_id == sid &&
        e.event_type == "email_open" &&
        decide (db.now - 30 * secondsPerDay ≤ e.timestamp))).isEmpty) = false := by
      rw [List.isEmpty_eq_false_iff_exists_mem]
      obtain ⟨x, l, hxl⟩ := List.exists_cons_of_ne_nil
        (show (db.events.filter (fun e => e.subscriber_id == sid &&
          e.event_type == "email_open" &&
          decide (db.now - 30 * secondsPerDay ≤ e.timestamp))) ≠ [] from by
            intro hcon
            exact hne (by rw [hh, hcon]; rfl))
      exact ⟨x, by rw [hxl]; exact List.mem_cons_self _ _⟩
    rw [hst, hioe]
    simp only [Bool.false_eq_true, if_false]
    rw [← hh]
    obtain ⟨x, l, hxl⟩ := List.exists_cons_of_ne_nil hne
    have ht0 : ∃ t, uniqKeys hours = x :: t := by
      rw [hxl]; exact uniqKeys_cons x l
    obtain ⟨t, ht⟩ := ht0
    obtain ⟨r, hr, hcase⟩ := foldl_firstMax (fun k => hours.count k) t x
    have hmc : mostCommonFirst hours = r := by
      unfold mostCommonFirst
      rw [ht]
      exact hr
    rcases hcase with ⟨hrb, hall⟩ | ⟨l₁, l₂, htl, hbr, h1, h2⟩
    · subst hrb
      exact ⟨r, [], t, by simp [ht], by simp, hall, by rw [hmc]⟩
    · refine ⟨r, x :: l₁, l₂, by rw [ht, htl]; rfl, ?_, h2, by rw [hmc]⟩
      intro k hk
      rcases List.mem_cons.mp hk with hk | hk
      · subst hk; exact hbr
      · exact h1 k hk

/-- C5 counterexample: in `dbActive` the hours 10 and 3 are equally frequent;
the code picks the first-occurring hour 10, while the claim's lowest-hour
tie-break would pick 3. -/
theorem rebuild_send_time_cx :
    (update_subscriber_profile dbActive 1).1.optimal_send_time = "10:00" ∧
    claimedLowestHourSendTime dbActive 1 = "03:00" ∧
    ("10:00" : String) ≠ "03:00" := by
  refine ⟨rfl, rfl, by decide⟩

/-- C5 witness: on `dbActive` the characterization applies with a non-empty
open list. -/
theorem rebuild_send_time_witness :
    ∃ h l₁ l₂,
      uniqKeys ((dbActive.events.filter (fun e => e.subscriber_id == 1 &&
        e.event_type == "email_open" &&
        decide (dbActive.now - 30 * secondsPerDay ≤ e.timestamp))).map
          (fun e => hourOf e.timestamp)) = l₁ ++ h :: l₂ ∧
      (∀ k ∈ l₁, (((dbActive.events.filter (fun e => e.subscriber_id == 1 &&
        e.event_type == "email_open" &&
        decide (dbActive.now - 30 * secondsPerDay ≤ e.timestamp))).map
          (fun e => hourOf e.timestamp)).count k <
        ((dbActive.events.filter (fun e => e.subscriber_id == 1 &&
        e.event_type == "email_open" &&
        decide (dbActive.now - 30 * secondsPerDay ≤ e.timestamp))).map
          (fun e => hourOf e.timestamp)).count h)) ∧
      (∀ k ∈ l₂, (((dbActive.events.filter (fun e => e.subscriber_id == 1 &&
        e.event_type == "email_open" &&
        decide (dbActive.now - 30 * secondsPerDay ≤ e.timestamp))).map
          (fun e => hourOf e.timestamp)).count k ≤
        ((dbActive.events.filter (fun e => e.subscriber_id == 1 &&
        e.event_type == "email_open" &&
        decide (dbActive.now - 30 * secondsPerDay ≤ e.timestamp))).map
          (fun e => hourOf e.timestamp)).count h)) ∧
      (update_subscriber_profile dbActive 1).1.optimal_send_time = formatHour h :=
  (rebuild_send_time dbActive 1).2 _ rfl (by decide)

lemma engagement_rate_nonneg (n : Nat) (T : ℚ) (hT : 0 < T) :
    0 ≤ min ((n : ℚ) / T) 1 :=
  le_min (div_nonneg (Nat.cast_nonneg n) hT.le) zero_le_one

lemma total_emails_cast_pos (days : Nat) (h0 : ¬ (min days 30 = 0)) :
    (0 : ℚ) < ((min days 30 : Nat) : ℚ) := by
  exact_mod_cast Nat.pos_of_ne_zero h0

lemma engagement_formula_nonneg (opens clicks views days : Nat) :
    0 ≤ engagement_formula opens clicks views days := by
  unfold engagement_formula
  dsimp only
  split_ifs with h0 ho
  · exact le_refl 0
  · refine le_min ?_ (by norm_num)
    have hT := total_emails_cast_pos days h0
    have h1 := engagement_rate_nonneg opens _ hT
    have h2 := engagement_rate_nonneg clicks _ hT
    have h3 := engagement_rate_nonneg views _ hT
    have := mul_nonneg h1 (by norm_num : (0:ℚ) ≤ 30)
    have := mul_nonneg h2 (by norm_num : (0:ℚ) ≤ 40)
    have := mul_nonneg h3 (by norm_num : (0:ℚ) ≤ 30)
    positivity
  · refine le_min ?_ (by norm_num)
    have hT := total_emails_cast_pos days h0
    have h1 := engagement_rate_nonneg opens _ hT
    have h3 := engagement_rate_nonneg views _ hT
    have e1 := mul_nonneg h1 (by norm_num : (0:ℚ) ≤ 30)
    have e3 := mul_nonneg h3 (by norm_num : (0:ℚ) ≤ 30)
    nlinarith

lemma engagement_formula_le_100 (opens clicks views days : Nat) :
    engagement_formula opens clicks views days ≤ 100 := by
  unfold engagement_formula
  dsimp only
  split_ifs with h0
  · norm_num
  · exact min_le_right _ _
  · exact min_le_right _ _

lemma score_min_mono {a b c d e f : ℚ} (h1 : a ≤ d) (h2 : b ≤ e) (h3 : c ≤ f) :
    min (a + b + c) 100 ≤ min (d + e + f) 100 :=
  min_le_min (add_le_add (add_le_add h1 h2) h3) le_rfl

lemma open_rate_term_mono (n n' : Nat) (T w : ℚ) (hT : 0 < T) (hw : 0 ≤ w)
    (h : n ≤ n') : min ((n : ℚ) / T) 1 * w ≤ min ((n' : ℚ) / T) 1 * w := by
  refine mul_le_mul_of_nonneg_right (min_le_min ?_ le_rfl) hw
  exact (div_le_div_iff_of_pos_right hT).mpr (by exact_mod_cast h)

lemma engagement_formula_mono_opens (opens opens' clicks views days : Nat)
    (h : opens ≤ opens') :
    engagement_formula opens clicks views days ≤
      engagement_formula opens' clicks views days := by
  unfold engagement_formula
  dsimp only
  split_ifs with h0 ho ho'
  · exact le_refl 0
  · exact score_min_mono
      (open_rate_term_mono _ _ _ _ (total_emails_cast_pos days h0) (by norm_num) h)
      le_rfl le_rfl
  · exact absurd (Nat.lt_of_lt_of_le ho h) ho'
  · have hT := total_emails_cast_pos days h0
    refine score_min_mono
      (open_rate_term_mono _ _ _ _ hT (by norm_num) h) ?_ le_rfl
    rw [zero_mul]
    exact mul_nonneg (engagement_rate_nonneg clicks _ hT) (by norm_num)
  · exact score_min_mono
      (open_rate_term_mono _ _ _ _ (total_emails_cast_pos days h0) (by norm_num) h)
      le_rfl le_rfl

lemma engagement_formula_mono_clicks (opens clicks clicks' views days : Nat)
    (h : clicks ≤ clicks') :
    engagement_formula opens clicks views days ≤
      engagement_formula opens clicks' views days := by
  unfold engagement_formula
  dsimp only
  split_ifs with h0 ho
  · exact le_refl 0
  · exact score_min_mono le_rfl
      (open_rate_term_mono _ _ _ _ (total_emails_cast_pos days h0) (by norm_num) h)
      le_rfl
  · exact le_refl _

lemma engagement_formula_mono_views (opens clicks views views' days : Nat)
    (h : views ≤ views') :
    engagement_formula opens clicks views days ≤
      engagement_formula opens clicks views' days := by
  unfold engagement_formula
  dsimp only
  split_ifs with h0 ho
  · exact le_refl 0
  · exact score_min_mono le_rfl le_rfl
      (open_rate_term_mono _ _ _ _ (total_emails_cast_pos days h0) (by norm_num) h)
  · exact score_min_mono le_rfl le_rfl
      (open_rate_term_mono _ _ _ _ (total_emails_cast_pos days h0) (by norm_num) h)

/-- C7. The engagement score is monotonically non-decreasing in opens, clicks
and views individually (the counts enter `calculate_engagement_score` only
through `engagement_formula`, its body after event counting), and
`calculate_engagement_score` always lies in [0, 100]. -/
theorem engagement_monotone_bounded (db : DB) (sid : Nat) (days : Nat)
    (opens opens' clicks clicks' views views' : Nat) :
    (opens ≤ opens' → engagement_formula opens clicks views days ≤
      engagement_formula opens' clicks views days) ∧
    (clicks ≤ clicks' → engagement_formula opens clicks views days ≤
      engagement_formula opens clicks' views days) ∧
    (views ≤ views' → engagement_formula opens clicks views days ≤
      engagement_formula opens clicks views' days) ∧
    0 ≤ calculate_engagement_score db sid days ∧
    calculate_engagement_score db sid days ≤ 100 := by
  refine ⟨engagement_formula_mono_opens _ _ _ _ _,
    engagement_formula_mono_clicks _ _ _ _ _,
    engagement_formula_mono_views _ _ _ _ _, ?_, ?_⟩
  · unfold calculate_engagement_score
    dsimp only
    split_ifs
    · exact le_refl 0
    · exact engagement_formula_nonneg _ _ _ _
  · unfold calculate_engagement_score
    dsimp only
    split_ifs
    · norm_num
    · exact engagement_formula_le_100 _ _ _ _

/-- C7 witness: concrete monotonicity steps and bounds. -/
theorem engagement_monotone_bounded_witness :
    (engagement_formula 1 2 3 30 ≤ engagement_formula 2 2 3 30) ∧
    (engagement_formula 1 2 3 30 ≤ engagement_formula 1 3 3 30) ∧
    (engagement_formula 1 2 3 30 ≤ engagement_formula 1 2 4 30) ∧
    0 ≤ calculate_engagement_score dbActive 1 30 ∧
    calculate_engagement_score dbActive 1 30 ≤ 100 := by
  obtain ⟨h1, h2, h3, h4, h5⟩ :=
    engagement_monotone_bounded dbActive 1 30 1 2 2 3 3 4
  exact ⟨h1 (by norm_num), h2 (by norm_num), h3 (by norm_num), h4, h5⟩

/-- C8. With a stored profile whose preferences are non-empty,
`personalize_content_order` returns a permutation of the input, sorted
descending by the combined preference score, stably: for every score value the
items attaining it keep their input order, and the function is deterministic
(running it twice on the same input and profile yields the same order). -/
theorem order_content_stable_sorted (db : DB) (sid : Nat)
    (content_items : List ContentItemReq) (profile : SubscriberProfile)
    (hp : profileGet db sid = some profile)
    (hne : profile.content_preferences ≠ []) :
    (personalize_content_order db sid content_items).Perm content_items ∧
    (personalize_content_order db sid content_items).Pairwise
      (fun a b => preference_score profile.content_preferences b ≤
        preference_score profile.content_preferences a) ∧
    (∀ q : ℚ, (personalize_content_order db sid content_items).filter
        (fun x => decide (preference_score profile.content_preferences x = q)) =
      content_items.filter
        (fun x => decide (preference_score profile.content_preferences x = q))) ∧
    personalize_content_order db sid content_items =
      personalize_content_order db sid content_items := by
  have hpc : personalize_content_order db sid content_items =
      content_items.mergeSort (fun a b =>
        decide (preference_score profile.content_preferences b ≤
          preference_score profile.content_preferences a)) := by
    unfold personalize_content_order
    rw [hp]
    dsimp only
    rw [if_neg (by simpa [List.isEmpty_iff] using hne)]
  have htrans : ∀ (a b c : ContentItemReq),
      decide (preference_score profile.content_preferences b ≤
        preference_score profile.content_preferences a) = true →
      decide (preference_score profile.content_preferences c ≤
        preference_score profile.content_preferences b) = true →
      decide (preference_score profile.content_preferences c ≤
        preference_score profile.content_preferences a) = true := by
    intro a b c hab hbc
    rw [decide_eq_true_eq] at *
    exact le_trans hbc hab
  have htotal : ∀ (a b : ContentItemReq),
      (decide (preference_score profile.content_preferences b ≤
        preference_score profile.content_preferences a) ||
       decide (preference_score profile.content_preferences a ≤
        preference_score profile.content_preferences b)) = true := by
    intro a b
    rcases le_total (preference_score profile.content_preferences b)
        (preference_score profile.content_preferences a) with h | h
    · simp [h]
    · simp [h]
  refine ⟨?_, ?_, ?_, rfl⟩
  · rw [hpc]
    exact List.mergeSort_perm _ _
  · rw [hpc]
    have hsorted := List.sorted_mergeSort htrans htotal content_items
    exact hsorted.imp (fun hab => decide_eq_true_eq.mp hab)
  · intro q
    rw [hpc]
    set le := fun a b : ContentItemReq =>
      decide (preference_score profile.content_preferences b ≤
        preference_score profile.content_preferences a) with hle
    set pq := fun x : ContentItemReq =>
      decide (preference_score profile.content_preferences x = q) with hpq
    have hmemq : ∀ x ∈ content_items.filter pq,
        preference_score profile.content_preferences x = q := by
      intro x hx
      have := List.of_mem_filter hx
      rw [hpq] at this
      exact decide_eq_true_eq.mp this
    have hpair : (content_items.filter pq).Pairwise (fun a b => le a b) := by
      apply List.pairwise_of_forall_mem_list
      intro a ha b hb
      rw [hle]
      rw [decide_eq_true_eq, hmemq a ha, hmemq b hb]
    have hsub : List.Sublist (content_items.filter pq)
        (content_items.mergeSort le) :=
      List.sublist_mergeSort htrans htotal hpair (List.filter_sublist _)
    have hsub2 : List.Sublist ((content_items.filter pq).filter pq)
        ((content_items.mergeSort le).filter pq) := hsub.filter pq
    have hself : (content_items.filter pq).filter pq = content_items.filter pq := by
      apply List.filter_eq_self.mpr
      intro a ha
      exact List.of_mem_filter ha
    rw [hself] at hsub2
    have hlen : ((content_items.mergeSort le).filter pq).length =
        (content_items.filter pq).length :=
      ((List.mergeSort_perm content_items le).filter pq).length_eq
    exact (hsub2.eq_of_length hlen.symm).symm

/-- C8 witness: concrete permutation and stability at score value 40 on
`dbProfiled` (two "news" items keep their input order). -/
theorem order_content_stable_sorted_witness :
    (personalize_content_order dbProfiled 1 sampleItems).Perm sampleItems ∧
    (personalize_content_order dbProfiled 1 sampleItems).filter
        (fun x => decide (preference_score
          [("stock_analysis", (60 : ℚ)), ("news", 40)] x = 40)) =
      sampleItems.filter
        (fun x => decide (preference_score
          [("stock_analysis", (60 : ℚ)), ("news", 40)] x = 40)) := by
  have h := order_content_stable_sorted dbProfiled 1 sampleItems
    { subscriber_id := 1
      engagement_score := 80
      content_preferences := [("stock_analysis", 60), ("news", 40)]
      behavioral_segments := ["high_engagement", "high_churn_risk", "stock_focused"]
      churn_risk_score := 75
      optimal_send_time := "09:00" } rfl (by decide)
  exact ⟨h.1, h.2.2.1 40⟩

/-- C3 witness: on `dbSectioned` the tier counts hold and the preferences are
non-empty. -/
theorem segments_tier_invariant_witness :
    (determine_behavioral_segments dbSectioned 1).countP
      (fun s => engagement_tier_labels.contains s) = 1 ∧
    (determine_behavioral_segments dbSectioned 1).countP
      (fun s => churn_tier_labels.contains s) = 1 ∧
    (determine_behavioral_segments dbSectioned 1).countP
      (fun s => focus_labels.contains s) ≤ 1 ∧
    analyze_content_preferences dbSectioned 1 ≠ [] := by
  have h := segments_tier_invariant dbSectioned 1
  exact ⟨h.1, h.2.1, h.2.2.1, by decide⟩
